import Mathlib

/-!
Verification of the MindMirrorAI analysis gateway (`src/server/server.js`).

The server is a thin Express gateway: it validates a text body, calls the
remote generative-language endpoint (`callGeminiAPI`, with 429
retry-with-backoff and a model-name fallback list), and normalizes the
remote reply into a fixed four-field analysis object.

The embedding below models parsed JSON values (`Js`), JavaScript
truthiness, property access, `parseInt`, `String(..)` conversion, the
markdown-fence stripping, and the control flow of `callGeminiAPI` and the
`POST /api/analyze` handler.  The network is modelled as a function from
the attempt number to the event the single outbound request of that
attempt produces; the body of a response is given as `Except String Js`,
where `.error m` stands for a body on which `JSON.parse(data)` throws with
engine message `m` (the code only ever uses the parsed value).  The
`JSON.parse` applied to the candidate's own generated text is kept
abstract as a parameter `p : String → Option Js` (`none` = the parse
throws); every theorem holds for all parsers, and witnesses instantiate
concrete ones.
-/

set_option autoImplicit false

/-- Parsed JSON value as JavaScript sees it.  `num` is restricted to the
integer-valued numbers (the only numbers the analysed code ever inspects);
`obj` carries the key/value pairs, keys distinct as produced by
`JSON.parse`. -/
inductive Js where
  | null : Js
  | bool : Bool → Js
  | num : Int → Js
  | str : String → Js
  | arr : List Js → Js
  | obj : List (String × Js) → Js

/-- JavaScript truthiness of a `Js` value (`null`, `false`, `0` and `""`
are falsy; arrays and objects are always truthy). -/
def Js.truthy : Js → Bool
  | .null => false
  | .bool b => b
  | .num n => n != 0
  | .str s => s != ""
  | .arr _ => true
  | .obj _ => true

/-- Property access `v.k`: returns `none` for `undefined`.  On objects it
is key lookup; on every other value the analysed properties do not exist.
(Access on `null` throws in JavaScript; all call sites below reach `get`
only behind a truthiness or null guard mirroring the source.) -/
def Js.get : Js → String → Option Js
  | .obj fields, k => fields.lookup k
  | _, _ => none

/-- Index access `v[i]`: array element, object property `"i"`, or the
one-character string for string values; `undefined` otherwise. -/
def Js.idx : Js → Nat → Option Js
  | .arr xs, i => xs.get? i
  | .obj fields, i => fields.lookup (toString i)
  | .str s, i => (s.toList.get? i).map (fun c => Js.str (String.singleton c))
  | _, _ => none

/-- Whether a `Js` value is `null`. -/
def Js.isNull : Js → Bool
  | .null => true
  | _ => false

/-- Keep a possibly-`undefined` value only when it is truthy; models the
guards of `&&` chains such as `response.candidates && response.candidates[0]`. -/
def truthyVal (o : Option Js) : Option Js :=
  match o with
  | some v => if v.truthy then some v else none
  | none => none

/-- JavaScript `a || b` where `a` may be `undefined`. -/
def jsOr (o : Option Js) (dflt : Js) : Js :=
  match o with
  | some v => if v.truthy then v else dflt
  | none => dflt

/-- Optional-chained access `o?.k`: short-circuits to `undefined` on
`null`/`undefined`, plain access otherwise. -/
def optChainGet (o : Option Js) (k : String) : Option Js :=
  match o with
  | some Js.null => none
  | some v => v.get k
  | none => none

mutual

/-- JavaScript `String(v)` / `ToString` on the modelled values.  Arrays
join their elements with `","`, rendering `null` elements as the empty
string; objects render as `"[object Object]"`. -/
def jsToString : Js → String
  | .null => "null"
  | .bool b => if b then "true" else "false"
  | .num n => toString n
  | .str s => s
  | .arr xs => arrJoin xs
  | .obj _ => "[object Object]"

/-- Rendering of array elements joined with `","` for `jsToString`. -/
def arrJoin : List Js → String
  | [] => ""
  | x :: rest =>
      (match x with
       | Js.null => ""
       | v => jsToString v)
      ++ (match rest with
          | [] => ""
          | _ :: _ => "," ++ arrJoin rest)

end

/-- Whitespace for `String.prototype.trim` / `parseInt`, restricted to the
characters that can occur in the modelled data (ASCII whitespace plus
NBSP and BOM). -/
def isJsWs (c : Char) : Bool :=
  c == ' ' || c == '\t' || c == '\n' || c == '\r' ||
  c == Char.ofNat 11 || c == Char.ofNat 12 || c == Char.ofNat 160 || c == Char.ofNat 65279

/-- JavaScript `s.trim()`. -/
def jsTrim (s : String) : String :=
  String.mk (((s.toList.dropWhile isJsWs).reverse.dropWhile isJsWs).reverse)

/-- JavaScript `s.substring(0, n)`: the first `n` characters. -/
def jsSubstring (s : String) (n : Nat) : String :=
  String.mk (s.toList.take n)

/-- Numeric value of a digit run. -/
def digitsVal (ds : List Char) : Nat :=
  ds.foldl (fun acc c => acc * 10 + (c.toNat - 48)) 0

/-- Magnitude part of `parseInt(s, 10)`: longest leading digit run, or
`none` (NaN) when there is none. -/
def jsParseIntCore (cs : List Char) : Option Nat :=
  let ds := cs.takeWhile Char.isDigit
  if ds.isEmpty then none else some (digitsVal ds)

/-- JavaScript `parseInt(s, 10)`: skip leading whitespace, optional sign,
then the longest digit run; `none` models NaN. -/
def jsParseInt (s : String) : Option Int :=
  match s.toList.dropWhile isJsWs with
  | '-' :: t => (jsParseIntCore t).map (fun n => -(n : Int))
  | '+' :: t => (jsParseIntCore t).map (fun n => (n : Int))
  | cs => (jsParseIntCore cs).map (fun n => (n : Int))

/-- Whether `pat` occurs in the character list; models
`String.prototype.includes`. -/
def containsList (pat : List Char) : List Char → Bool
  | [] => pat.isEmpty
  | c :: rest => pat.isPrefixOf (c :: rest) || containsList pat rest

/-- JavaScript `s.includes(pat)`. -/
def containsStr (s pat : String) : Bool :=
  containsList pat.toList s.toList

/-- JavaScript `s.startsWith(pat)` on the character-list view. -/
def startsWithList (s : String) (pat : List Char) : Bool :=
  pat.isPrefixOf s.toList

/-- The backtick character. -/
def bq : Char := Char.ofNat 96

/-- Global replacement of the pattern of the regex matching three
backticks, `json`, and an optional newline, by the empty string
(`.replace` with the json-fence regex and the `g` flag in
`callGeminiAPI`). -/
def stripJsonFence : List Char → List Char
  | c1 :: c2 :: c3 :: c4 :: c5 :: c6 :: c7 :: rest =>
    if [c1, c2, c3, c4, c5, c6, c7] = [bq, bq, bq, 'j', 's', 'o', 'n'] then
      match rest with
      | '\n' :: t => stripJsonFence t
      | t => stripJsonFence t
    else c1 :: stripJsonFence (c2 :: c3 :: c4 :: c5 :: c6 :: c7 :: rest)
  | c :: rest => c :: stripJsonFence rest
  | [] => []

/-- Global replacement of the pattern of the regex matching three
backticks and an optional newline, by the empty string. -/
def stripBacktickFence : List Char → List Char
  | c1 :: c2 :: c3 :: rest =>
    if [c1, c2, c3] = [bq, bq, bq] then
      match rest with
      | '\n' :: t => stripBacktickFence t
      | t => stripBacktickFence t
    else c1 :: stripBacktickFence (c2 :: c3 :: rest)
  | c :: rest => c :: stripBacktickFence rest
  | [] => []

/-- Markdown-fence stripping applied by `callGeminiAPI` to the trimmed
candidate text: a text starting with a json fence has both fence regexes
replaced away and is re-trimmed; a text starting with a bare fence has the
bare fence regex replaced away and is re-trimmed; otherwise unchanged. -/
def stripFences (t : String) : String :=
  if startsWithList t [bq, bq, bq, 'j', 's', 'o', 'n'] then
    jsTrim (String.mk (stripBacktickFence (stripJsonFence t.toList)))
  else if startsWithList t [bq, bq, bq] then
    jsTrim (String.mk (stripBacktickFence t.toList))
  else t

/-- Scan of `errorResponse.error.details` in `extractRetryDelay`: the
first detail with a truthy `retryDelay` yields `parseInt(value, 10)`
(`none` models NaN); a `null` detail makes the property access throw,
which the surrounding `try` turns into the default `30`; a completed scan
also returns `30`. -/
def scanDetails : List Js → Option Int
  | [] => some 30
  | d :: rest =>
    if d.isNull then some 30
    else
      match truthyVal (d.get "retryDelay") with
      | some v => jsParseInt (jsToString v)
      | none => scanDetails rest

/-- Model of `extractRetryDelay` (server.js lines 78-91): when
`errorResponse.error?.details` is a (truthy) array, scan it for a truthy
`retryDelay`; in every other case return the default of 30 seconds. -/
def extractRetryDelay (errorResponse : Js) : Option Int :=
  match optChainGet (errorResponse.get "error") "details" with
  | some (Js.arr details) => scanDetails details
  | _ => some 30

/-- Message of the rejection for a non-200, non-retried status (server.js
line 183): `response.error?.message || response.error?.code || generic`. -/
def errMessage (response : Js) (statusCode : Nat) : String :=
  jsToString (jsOr (optChainGet (response.get "error") "message")
    (jsOr (optChainGet (response.get "error") "code")
      (Js.str ("API request failed with status " ++ toString statusCode))))

/-- Normalization of a successfully parsed candidate object (server.js
lines 217-222): each field defaulted exactly as in the resolve literal. -/
def normalizeAnalysis (analysis : Js) (textResponse : String) : Js :=
  Js.obj [
    ("sentiment", jsOr (analysis.get "sentiment") (Js.str "neutral")),
    ("themes", match analysis.get "themes" with
               | some (Js.arr xs) => Js.arr xs
               | _ => Js.arr []),
    ("tone", jsOr (analysis.get "tone") (Js.str "Not specified")),
    ("summary", jsOr (analysis.get "summary") (Js.str (jsSubstring textResponse 200)))]

/-- Fallback object resolved when the candidate text does not parse as
JSON (server.js lines 226-231). -/
def fallbackResult (textResponse : String) : Js :=
  Js.obj [
    ("sentiment", Js.str "neutral"),
    ("themes", Js.arr []),
    ("tone", Js.str "mixed"),
    ("summary", Js.str (jsSubstring textResponse 500))]

/-- Errors of one `callGeminiAPI` call, one constructor per reject site of
the source.  `parseFailure` is the catch of line 239 (`JSON.parse(data)`
throwing, or `.trim()` applied to a truthy non-string candidate text) and
carries the engine message; `remoteError` is the non-200 rejection of
line 184; the remaining three are the fixed-message rejections of lines
202, 234 and 237. -/
inductive CallError where
  | transportError (msg : String)
  | parseFailure (msg : String)
  | remoteError (msg : String)
  | emptyResponse
  | missingParts
  | missingCandidates

/-- The `message` of the `Error` object each reject site constructs. -/
def CallError.message : CallError → String
  | .transportError m => "Request failed: " ++ m
  | .parseFailure m => "Failed to parse API response: " ++ m
  | .remoteError m => m
  | .emptyResponse => "Empty response from Gemini API"
  | .missingParts => "Invalid response format: missing content.parts"
  | .missingCandidates => "Invalid response format: missing candidates"

/-- The error of the non-200, non-retried rejection.  Reading `error` off
a body parsed to JSON `null` throws a `TypeError` that the outer catch
turns into a parse-failure rejection (the message models the engine's);
for every other value the payload-derived message is used. -/
def non200Error (response : Js) (statusCode : Nat) : CallError :=
  if response.isNull then
    CallError.parseFailure "Cannot read properties of null (reading 'error')"
  else CallError.remoteError (errMessage response statusCode)

/-- What the network does for one outbound request: a transport error
(`req.on('error')`), or a response with a status code and a body.  The
body is the outcome of `JSON.parse(data)`: `.error m` when that parse
throws with engine message `m`. -/
inductive NetEvent where
  | transportError (msg : String)
  | response (statusCode : Nat) (body : Except String Js)

/-- Result of a `callGeminiAPI` call chain: the settled promise, the
number of outbound requests issued, and the list of backoff delays awaited
(in seconds; `none` models a NaN delay value). -/
structure CallTrace where
  outcome : Except CallError Js
  attempts : Nat
  delays : List (Option Int)

/-- The `candidates[0].content.parts[0].text` extraction guarded by the
truthiness chains of server.js lines 189 and 198: `some` the text value
when every guard passes and the text itself is truthy, `none` otherwise. -/
def candidateText (response : Js) : Option Js :=
  (truthyVal ((truthyVal (response.get "candidates")).bind (fun c => c.idx 0))).bind
    (fun candidate =>
      (truthyVal ((truthyVal ((truthyVal (candidate.get "content")).bind
          (fun c => c.get "parts"))).bind (fun ps => ps.idx 0))).bind
        (fun pt => truthyVal (pt.get "text")))

/-- Processing of a truthy candidate text value (server.js lines 199-232),
parameterized by the JSON parser `p` applied to the fence-stripped text.
A parse failure, or the `TypeError` thrown by accessing a property of a
parsed `null`, is caught and recovered into the fallback object; a truthy
non-string text makes `.trim()` throw, which the outer catch turns into a
parse-failure rejection. -/
def handleText (p : String → Option Js) (v : Js) : Except CallError Js :=
  match v with
  | Js.str raw =>
    (match p (stripFences (jsTrim raw)) with
     | none => .ok (fallbackResult raw)
     | some Js.null => .ok (fallbackResult raw)
     | some analysis => .ok (normalizeAnalysis analysis raw))
  | _ => .error (.parseFailure "textResponse.trim is not a function")

/-- The HTTP-200 branch of `callGeminiAPI` (server.js lines 188-238): the
truthiness-guarded extraction of `candidates[0].content.parts[0].text`,
with one reject site per failed guard, then `handleText`.  A body parsed
to JSON `null` makes `response.candidates` throw a `TypeError` that the
outer catch turns into a parse-failure rejection. -/
def handle200 (p : String → Option Js) (response : Js) : Except CallError Js :=
  if response.isNull then
    .error (.parseFailure "Cannot read properties of null (reading 'candidates')")
  else
  match truthyVal ((truthyVal (response.get "candidates")).bind (fun c => c.idx 0)) with
  | none => .error .missingCandidates
  | some candidate =>
    match truthyVal ((truthyVal ((truthyVal (candidate.get "content")).bind
        (fun c => c.get "parts"))).bind (fun ps => ps.idx 0)) with
    | none => .error .missingParts
    | some pt =>
      match truthyVal (pt.get "text") with
      | none => .error .emptyResponse
      | some v => handleText p v

/-- Model of `callGeminiAPI` (server.js lines 94-256).  `p` is the JSON
parser for the candidate text, `net` gives the event of the request issued
with attempt counter `retryCount`.  A 429 with `retryCount < maxRetries`
awaits the extracted delay and re-invokes with `retryCount + 1`; any other
non-200 rejects with the payload-derived message; a 200 is handled by
`handle200`.  A body on which `JSON.parse` throws rejects before the
status is inspected, as in the source. -/
def callGeminiAPI (p : String → Option Js) (net : Nat → NetEvent)
    (retryCount : Nat) (maxRetries : Nat) : CallTrace :=
  match net retryCount with
  | .transportError msg => ⟨.error (.transportError msg), 1, []⟩
  | .response statusCode body =>
    match body with
    | .error msg => ⟨.error (.parseFailure msg), 1, []⟩
    | .ok response =>
      if h : statusCode = 429 ∧ retryCount < maxRetries then
        let rest := callGeminiAPI p net (retryCount + 1) maxRetries
        ⟨rest.outcome, rest.attempts + 1, extractRetryDelay response :: rest.delays⟩
      else if statusCode ≠ 200 then
        ⟨.error (non200Error response statusCode), 1, []⟩
      else
        ⟨handle200 p response, 1, []⟩
termination_by maxRetries - retryCount
decreasing_by
  omega

/-- Response of the `POST /api/analyze` handler as the client observes it:
`ok` is the 200 `{success:true, analysis}` reply, `badRequest` the 400 and
`serverError` the 500 `{success:false, error}` replies. -/
inductive HRes where
  | ok (analysis : Js)
  | badRequest (error : String)
  | serverError (error : String)

/-- The fixed alternative model list of the handler (server.js line 286). -/
def alternativeModels : List String :=
  ["gemini-1.5-flash-latest", "gemini-1.5-flash", "gemini-1.5-pro"]

/-- The for-loop over alternative models (server.js lines 288-299):
skip the model equal to the configured primary, stop at the first
success, swallow every alternative failure.  Returns the result (if any)
and the list of models actually called. -/
def tryAlternatives (call : String → Except CallError Js) (primaryModel : String) :
    List String → Option Js × List String
  | [] => (none, [])
  | mdl :: rest =>
    if mdl == primaryModel then tryAlternatives call primaryModel rest
    else
      match call mdl with
      | .ok a => (some a, [mdl])
      | .error _ =>
        let r := tryAlternatives call primaryModel rest
        (r.1, mdl :: r.2)

/-- The try/catch around the executor calls in the handler (server.js
lines 279-307) together with the outer catch (lines 315-321): a primary
failure whose message includes "not found" triggers the alternative-model
loop, ending in the all-models-failed 500 when no alternative succeeds;
any other failure reaches the outer catch as a 500 carrying
`error.message || generic`.  The second component lists the models called,
primary first. -/
def analyzeCore (t primaryModel : String)
    (callModel : String → String → Except CallError Js) : HRes × List String :=
  match callModel t primaryModel with
  | .ok analysis => (.ok analysis, [primaryModel])
  | .error e =>
    if (CallError.message e != "") &&
        (containsStr (CallError.message e) "not found" ||
         containsStr (CallError.message e) "is not found") then
      match tryAlternatives (fun mdl => callModel t mdl) primaryModel alternativeModels with
      | (some analysis, tried) => (.ok analysis, primaryModel :: tried)
      | (none, tried) =>
        (.serverError "All models failed. Check available models at /api/models or in server logs.",
         primaryModel :: tried)
    else
      (.serverError (if CallError.message e == "" then
          "An error occurred while analyzing the text. Please try again."
        else CallError.message e), [primaryModel])

/-- Model of the `POST /api/analyze` handler (server.js lines 259-322).
The body field `text` must be truthy, a string, and not whitespace-only,
else a 400; a text longer than 10000 characters is a 400; otherwise the
trimmed text is sent to the executor via `analyzeCore`.  The second
component lists the models called; it is empty exactly when no outbound
call was attempted. -/
def analyzeHandler (body : Js) (primaryModel : String)
    (callModel : String → String → Except CallError Js) : HRes × List String :=
  match body.get "text" with
  | some (Js.str s) =>
    if s == "" then (.badRequest "Please provide valid text to analyze", [])
    else if jsTrim s == "" then (.badRequest "Please provide valid text to analyze", [])
    else if s.length > 10000 then
      (.badRequest "Text is too long. Maximum 10,000 characters allowed.", [])
    else analyzeCore (jsTrim s) primaryModel callModel
  | some _ => (.badRequest "Please provide valid text to analyze", [])
  | none => (.badRequest "Please provide valid text to analyze", [])

/-- Whether an executor outcome is a success. -/
def isOkB : Except CallError Js → Bool
  | .ok _ => true
  | .error _ => false

/-- The analysis value of a successful executor outcome. -/
def okValue : Except CallError Js → Option Js
  | .ok a => some a
  | .error _ => none

/-- A candidate-text parser on which every parse throws. -/
def pNone : String → Option Js := fun _ => none

/-- A candidate-text parser returning the fixed value `v` for every text. -/
def pObj (v : Js) : String → Option Js := fun _ => some v

/-- A well-shaped 200 response whose single candidate carries text `t`. -/
def okTextResponse (t : String) : Js :=
  Js.obj [("candidates", Js.arr [Js.obj [("content",
    Js.obj [("parts", Js.arr [Js.obj [("text", Js.str t)]])])]])]

/-- A network that always answers 200 with the parsed body `r`. -/
def netOf (r : Js) : Nat → NetEvent := fun _ => NetEvent.response 200 (Except.ok r)

/-- A 429 payload whose structured `retryDelay` is the unparsable string
`"soon"`. -/
def c6resp : Js :=
  Js.obj [("error", Js.obj [("details", Js.arr [Js.obj [("retryDelay", Js.str "soon")]])])]

/-- A network answering 429 with `c6resp` on the first attempt and 500
afterwards. -/
def net429soon : Nat → NetEvent := fun i =>
  if i = 0 then NetEvent.response 429 (Except.ok c6resp)
  else NetEvent.response 500 (Except.ok (Js.obj []))

/-- A network that answers 429 with an empty-object body on every attempt. -/
def net429always : Nat → NetEvent := fun _ => NetEvent.response 429 (Except.ok (Js.obj []))

/-- A network whose 429 response has a body `JSON.parse` throws on. -/
def netBadBody : Nat → NetEvent := fun _ => NetEvent.response 429 (Except.error "Unexpected token o")

/-- A parsed candidate object with all four fields present and truthy. -/
def c4full : Js :=
  Js.obj [("sentiment", Js.str "positive"), ("themes", Js.arr [Js.str "work"]),
          ("tone", Js.str "upbeat"), ("summary", Js.str "Expresses enjoyment of work.")]

/-- A parsed candidate object with all four fields present but a falsy
(empty-string) `sentiment`. -/
def c4falsy : Js :=
  Js.obj [("sentiment", Js.str ""), ("themes", Js.arr []),
          ("tone", Js.str "calm"), ("summary", Js.str "fine")]

/-- An executor failing with a model-not-found message on every model
except `gemini-1.5-flash`. -/
def cmNotFound : String → String → Except CallError Js := fun _ mdl =>
  if mdl == "gemini-1.5-flash" then Except.ok (Js.obj [])
  else Except.error (CallError.remoteError "models/gemma-3-27b-it is not found for API version v1beta")

/-- An executor that always succeeds with an empty analysis object. -/
def cmOk : String → String → Except CallError Js := fun _ _ => Except.ok (Js.obj [])

/-- A request body carrying the text `"hi"`. -/
def bodyHi : Js := Js.obj [("text", Js.str "hi")]

/-- A request body carrying the one-character whitespace text. -/
def bodySpace : Js := Js.obj [("text", Js.str " ")]


/-! ## Step lemmas for the retry loop -/

/-- A transport error settles the chain in one attempt. -/
theorem callG_step_transport (p : String → Option Js) (net : Nat → NetEvent) (a m : Nat)
    (msg : String) (h : net a = NetEvent.transportError msg) :
    callGeminiAPI p net a m = ⟨.error (.transportError msg), 1, []⟩ := by
  unfold callGeminiAPI
  rw [h]

/-- A body `JSON.parse` throws on rejects in one attempt, before the
status code is inspected. -/
theorem callG_step_badBody (p : String → Option Js) (net : Nat → NetEvent) (a m : Nat)
    (statusCode : Nat) (msg : String) (h : net a = NetEvent.response statusCode (Except.error msg)) :
    callGeminiAPI p net a m = ⟨.error (.parseFailure msg), 1, []⟩ := by
  unfold callGeminiAPI
  rw [h]

/-- A 429 with attempts left: one backoff of the extracted delay, then the
chain continues at `a + 1`. -/
theorem callG_step_429 (p : String → Option Js) (net : Nat → NetEvent) (a m : Nat) (r : Js)
    (hlt : a < m) (h : net a = NetEvent.response 429 (Except.ok r)) :
    callGeminiAPI p net a m =
      ⟨(callGeminiAPI p net (a + 1) m).outcome, (callGeminiAPI p net (a + 1) m).attempts + 1,
       extractRetryDelay r :: (callGeminiAPI p net (a + 1) m).delays⟩ := by
  conv_lhs => unfold callGeminiAPI
  rw [h]
  simp [hlt]

/-- A 429 with no attempts left rejects with the payload-derived message,
in one attempt and with no backoff. -/
theorem callG_step_429_stop (p : String → Option Js) (net : Nat → NetEvent) (a m : Nat) (r : Js)
    (hge : m ≤ a) (h : net a = NetEvent.response 429 (Except.ok r)) :
    callGeminiAPI p net a m = ⟨.error (non200Error r 429), 1, []⟩ := by
  unfold callGeminiAPI
  rw [h]
  have hnot : ¬(429 = 429 ∧ a < m) := by omega
  simp [hnot]
  omega

/-- A non-429, non-200 status rejects with the payload-derived message in
one attempt. -/
theorem callG_step_non200 (p : String → Option Js) (net : Nat → NetEvent) (a m : Nat)
    (statusCode : Nat) (r : Js) (h429 : statusCode ≠ 429) (h200 : statusCode ≠ 200)
    (h : net a = NetEvent.response statusCode (Except.ok r)) :
    callGeminiAPI p net a m = ⟨.error (non200Error r statusCode), 1, []⟩ := by
  unfold callGeminiAPI
  rw [h]
  have hnot : ¬(statusCode = 429 ∧ a < m) := fun hand => h429 hand.1
  simp [hnot, h200]

/-- A 200 settles in one attempt with the outcome of the success branch. -/
theorem callG_step_200 (p : String → Option Js) (net : Nat → NetEvent) (a m : Nat) (r : Js)
    (h : net a = NetEvent.response 200 (Except.ok r)) :
    callGeminiAPI p net a m = ⟨handle200 p r, 1, []⟩ := by
  unfold callGeminiAPI
  rw [h]
  simp

/-! ## Characterizations of the 200 branch -/

/-- When the guarded extraction yields a text value, `handle200` is
`handleText` on that value. -/
theorem handle200_text (p : String → Option Js) (r v : Js)
    (h : candidateText r = some v) :
    handle200 p r = handleText p v := by
  have hnn : r.isNull = false := by
    cases r with
    | null => exact Option.noConfusion h
    | bool b => rfl
    | num n => rfl
    | str s => rfl
    | arr xs => rfl
    | obj fs => rfl
  unfold candidateText at h
  unfold handle200
  rw [hnn]
  simp only [Bool.false_eq_true, if_false]
  split
  · rename_i h1
    rw [h1] at h
    exact Option.noConfusion h
  · rename_i candidate h1
    rw [h1] at h
    simp only [Option.some_bind] at h
    split
    · rename_i h2
      rw [h2] at h
      exact Option.noConfusion h
    · rename_i pt h2
      rw [h2] at h
      simp only [Option.some_bind] at h
      split
      · rename_i h3
        rw [h3] at h
        exact Option.noConfusion h
      · rename_i w h3
        rw [h3] at h
        injection h with h
        rw [h]

/-- When the guarded extraction fails, `handle200` rejects with one of the
three shape errors. -/
theorem handle200_none (p : String → Option Js) (r : Js)
    (hnn : r.isNull = false) (h : candidateText r = none) :
    handle200 p r = Except.error CallError.missingCandidates
    ∨ handle200 p r = Except.error CallError.missingParts
    ∨ handle200 p r = Except.error CallError.emptyResponse := by
  unfold candidateText at h
  unfold handle200
  rw [hnn]
  simp only [Bool.false_eq_true, if_false]
  split
  · left; rfl
  · rename_i candidate h1
    rw [h1] at h
    simp only [Option.some_bind] at h
    split
    · right; left; rfl
    · rename_i pt h2
      rw [h2] at h
      simp only [Option.some_bind] at h
      split
      · right; right; rfl
      · rename_i w h3
        rw [h3] at h
        exact Option.noConfusion h

/-- The four keys of both resolve literals of the text processing. -/
theorem handleText_ok_fields (p : String → Option Js) (w v : Js)
    (h : handleText p w = Except.ok v) :
    (Js.get v "sentiment").isSome = true ∧ (Js.get v "themes").isSome = true
    ∧ (Js.get v "tone").isSome = true ∧ (Js.get v "summary").isSome = true := by
  unfold handleText at h
  split at h
  · split at h
    · injection h with h; subst h; exact ⟨rfl, rfl, rfl, rfl⟩
    · injection h with h; subst h; exact ⟨rfl, rfl, rfl, rfl⟩
    · injection h with h; subst h; exact ⟨rfl, rfl, rfl, rfl⟩
  · exact Except.noConfusion h

/-- The four keys of every success of the 200 branch. -/
theorem handle200_ok_fields (p : String → Option Js) (r v : Js)
    (h : handle200 p r = Except.ok v) :
    (Js.get v "sentiment").isSome = true ∧ (Js.get v "themes").isSome = true
    ∧ (Js.get v "tone").isSome = true ∧ (Js.get v "summary").isSome = true := by
  unfold handle200 at h
  split at h
  · exact Except.noConfusion h
  · split at h
    · exact Except.noConfusion h
    · split at h
      · exact Except.noConfusion h
      · split at h
        · exact Except.noConfusion h
        · exact handleText_ok_fields p _ v h

/-- Every successful settlement of the chain comes out of the 200 branch. -/
theorem callG_ok_from_handle200 (p : String → Option Js) (net : Nat → NetEvent) :
    ∀ (k a m : Nat), m - a ≤ k → ∀ v : Js,
      (callGeminiAPI p net a m).outcome = Except.ok v →
      ∃ r : Js, handle200 p r = Except.ok v := by
  intro k
  induction k with
  | zero =>
    intro a m hk v hv
    cases hnet : net a with
    | transportError msg =>
      rw [callG_step_transport p net a m msg hnet] at hv
      exact Except.noConfusion hv
    | response statusCode body =>
      cases body with
      | error msg =>
        rw [callG_step_badBody p net a m statusCode msg hnet] at hv
        exact Except.noConfusion hv
      | ok r =>
        by_cases h429 : statusCode = 429
        · subst h429
          rw [callG_step_429_stop p net a m r (by omega) hnet] at hv
          exact Except.noConfusion hv
        · by_cases h200 : statusCode = 200
          · subst h200
            rw [callG_step_200 p net a m r hnet] at hv
            exact ⟨r, hv⟩
          · rw [callG_step_non200 p net a m statusCode r h429 h200 hnet] at hv
            exact Except.noConfusion hv
  | succ k ih =>
    intro a m hk v hv
    cases hnet : net a with
    | transportError msg =>
      rw [callG_step_transport p net a m msg hnet] at hv
      exact Except.noConfusion hv
    | response statusCode body =>
      cases body with
      | error msg =>
        rw [callG_step_badBody p net a m statusCode msg hnet] at hv
        exact Except.noConfusion hv
      | ok r =>
        by_cases h429 : statusCode = 429
        · subst h429
          by_cases hlt : a < m
          · rw [callG_step_429 p net a m r hlt hnet] at hv
            exact ih (a + 1) m (by omega) v hv
          · rw [callG_step_429_stop p net a m r (by omega) hnet] at hv
            exact Except.noConfusion hv
        · by_cases h200 : statusCode = 200
          · subst h200
            rw [callG_step_200 p net a m r hnet] at hv
            exact ⟨r, hv⟩
          · rw [callG_step_non200 p net a m statusCode r h429 h200 hnet] at hv
            exact Except.noConfusion hv

/-! ## Characterizations of the retry-delay extraction -/

/-- On a details list without `null` entries, the scan returns `parseInt`
of the first truthy `retryDelay`, and 30 when no detail has one. -/
theorem scanDetails_find (l : List Js) (hnn : ∀ d ∈ l, d.isNull = false) :
    scanDetails l =
      (match l.find? (fun d => (truthyVal (d.get "retryDelay")).isSome) with
       | some d => jsParseInt (jsToString ((truthyVal (d.get "retryDelay")).getD Js.null))
       | none => some 30) := by
  induction l with
  | nil => rfl
  | cons d rest ih =>
    have hd : d.isNull = false := hnn d (by simp)
    unfold scanDetails
    rw [hd]
    simp only [Bool.false_eq_true, if_false]
    cases htv : truthyVal (d.get "retryDelay") with
    | some v =>
      rw [List.find?_cons_of_pos _ (by simp [htv])]
      simp [htv]
    | none =>
      rw [List.find?_cons_of_neg _ (by simp [htv])]
      exact ih (fun x hx => hnn x (by simp [hx]))

/-! ## Characterization of the alternative-model loop -/

/-- The loop scans the list with the primary model filtered out, calls
each model until the first success, and reports exactly the models called. -/
theorem tryAlternatives_spec (call : String → Except CallError Js) (pm : String)
    (l : List String) :
    tryAlternatives call pm l =
      (match (l.filter (fun mdl => mdl != pm)).find? (fun mdl => isOkB (call mdl)) with
       | some mdl => (okValue (call mdl),
           (l.filter (fun mdl => mdl != pm)).takeWhile (fun mdl => !isOkB (call mdl)) ++ [mdl])
       | none => (none, l.filter (fun mdl => mdl != pm))) := by
  induction l with
  | nil => rfl
  | cons mdl rest ih =>
    unfold tryAlternatives
    by_cases hpm : (mdl == pm) = true
    · rw [if_pos hpm]
      have heq : mdl = pm := by simpa using hpm
      subst heq
      have hfil : (mdl :: rest).filter (fun x => x != mdl) = rest.filter (fun x => x != mdl) := by
        simp [List.filter_cons]
      rw [hfil]
      exact ih
    · rw [if_neg hpm]
      have hfil : (mdl :: rest).filter (fun x => x != pm)
          = mdl :: rest.filter (fun x => x != pm) := by
        simp [List.filter_cons]
        simpa using hpm
      rw [hfil]
      cases hc : call mdl with
      | ok a =>
        rw [List.find?_cons_of_pos _ (by simp [isOkB, hc])]
        simp [okValue, hc, List.takeWhile_cons, isOkB]
      | error e =>
        rw [List.find?_cons_of_neg _ (by simp [isOkB, hc])]
        rw [ih]
        cases hfind : (rest.filter (fun x => x != pm)).find? (fun x => isOkB (call x)) with
        | some found =>
          simp [List.takeWhile_cons, isOkB, hc]
        | none => simp

/-! ## Handler helpers -/

/-- The includes-check on the empty string is the emptiness of the
pattern. -/
theorem containsStr_empty_left (pat : String) : containsStr "" pat = pat.toList.isEmpty := rfl

/-- `analyzeCore` never produces a 400: validation errors arise only in
the handler before the executor is invoked. -/
theorem analyzeCore_no_badRequest (t pm : String)
    (cm : String → String → Except CallError Js) (msg : String) (tr : List String) :
    analyzeCore t pm cm ≠ (HRes.badRequest msg, tr) := by
  intro hcontra
  unfold analyzeCore at hcontra
  split at hcontra
  · simp at hcontra
  · split at hcontra
    · split at hcontra
      · simp at hcontra
      · simp at hcontra
    · simp at hcontra

/-! ## Claim theorems -/

/-- C1: every AnalysisResult that `callGeminiAPI` resolves with — on any
HTTP 200 response, whether the candidate text parses as JSON or not — has
all four fields `sentiment`, `themes`, `tone`, `summary` populated; no
resolve path produces an object missing any of the four fields. -/
theorem c1_result_fully_populated (p : String → Option Js) (net : Nat → NetEvent)
    (a m : Nat) (v : Js) (h : (callGeminiAPI p net a m).outcome = Except.ok v) :
    (Js.get v "sentiment").isSome = true ∧ (Js.get v "themes").isSome = true
    ∧ (Js.get v "tone").isSome = true ∧ (Js.get v "summary").isSome = true := by
  obtain ⟨r, hr⟩ := callG_ok_from_handle200 p net (m - a) a m le_rfl v h
  exact handle200_ok_fields p r v hr

/-- Witness for C1 at a concrete resolving run. -/
theorem c1_result_fully_populated_witness :
    (Js.get (fallbackResult "hello") "sentiment").isSome = true
    ∧ (Js.get (fallbackResult "hello") "themes").isSome = true
    ∧ (Js.get (fallbackResult "hello") "tone").isSome = true
    ∧ (Js.get (fallbackResult "hello") "summary").isSome = true := by
  apply c1_result_fully_populated pNone (netOf (okTextResponse "hello")) 0 3
  rw [callG_step_200 pNone (netOf (okTextResponse "hello")) 0 3 (okTextResponse "hello") rfl]
  rfl

/-- C2: a 200 response whose non-empty candidate text does not parse as
JSON after markdown-fence stripping resolves — it does not reject — with
exactly the fixed fallback object: sentiment "neutral", empty themes,
tone "mixed", and the first 500 characters of the raw candidate text as
summary. -/
theorem c2_parse_failure_fallback (p : String → Option Js) (net : Nat → NetEvent)
    (a m : Nat) (r : Js) (raw : String)
    (hnet : net a = NetEvent.response 200 (Except.ok r))
    (htext : candidateText r = some (Js.str raw))
    (hparse : p (stripFences (jsTrim raw)) = none) :
    (callGeminiAPI p net a m).outcome
      = Except.ok (Js.obj [("sentiment", Js.str "neutral"), ("themes", Js.arr []),
          ("tone", Js.str "mixed"), ("summary", Js.str (jsSubstring raw 500))]) := by
  rw [callG_step_200 p net a m r hnet]
  show handle200 p r = _
  rw [handle200_text p r (Js.str raw) htext]
  simp [handleText, hparse, fallbackResult]

/-- Witness for C2 at a concrete unparseable candidate text. -/
theorem c2_parse_failure_fallback_witness :
    (callGeminiAPI pNone (netOf (okTextResponse "plain text")) 0 3).outcome
      = Except.ok (Js.obj [("sentiment", Js.str "neutral"), ("themes", Js.arr []),
          ("tone", Js.str "mixed"), ("summary", Js.str (jsSubstring "plain text" 500))]) :=
  c2_parse_failure_fallback pNone (netOf (okTextResponse "plain text")) 0 3
    (okTextResponse "plain text") "plain text" rfl rfl rfl

/-- C3: when the candidate text of a 200 response parses as a JSON
object, the resolved object defaults each missing field: an absent
sentiment becomes "neutral", absent or non-array themes become the empty
array, an absent tone becomes "Not specified", and an absent summary
becomes the first 200 characters of the raw candidate text. -/
theorem c3_missing_fields_defaulted (p : String → Option Js) (net : Nat → NetEvent)
    (a m : Nat) (r : Js) (raw : String) (fields : List (String × Js))
    (hnet : net a = NetEvent.response 200 (Except.ok r))
    (htext : candidateText r = some (Js.str raw))
    (hparse : p (stripFences (jsTrim raw)) = some (Js.obj fields)) :
    (callGeminiAPI p net a m).outcome = Except.ok (normalizeAnalysis (Js.obj fields) raw)
    ∧ (Js.get (Js.obj fields) "sentiment" = none →
        Js.get (normalizeAnalysis (Js.obj fields) raw) "sentiment" = some (Js.str "neutral"))
    ∧ ((∀ xs : List Js, Js.get (Js.obj fields) "themes" ≠ some (Js.arr xs)) →
        Js.get (normalizeAnalysis (Js.obj fields) raw) "themes" = some (Js.arr []))
    ∧ (Js.get (Js.obj fields) "tone" = none →
        Js.get (normalizeAnalysis (Js.obj fields) raw) "tone" = some (Js.str "Not specified"))
    ∧ (Js.get (Js.obj fields) "summary" = none →
        Js.get (normalizeAnalysis (Js.obj fields) raw) "summary"
          = some (Js.str (jsSubstring raw 200))) := by
  refine ⟨?_, ?_, ?_, ?_, ?_⟩
  · rw [callG_step_200 p net a m r hnet]
    show handle200 p r = _
    rw [handle200_text p r (Js.str raw) htext]
    simp [handleText, hparse]
  · intro hs
    have hs2 : List.lookup "sentiment" fields = none := hs
    simp [normalizeAnalysis, Js.get, jsOr, hs2]
  · intro hth
    have hmatch : (match List.lookup "themes" fields with
        | some (Js.arr xs) => Js.arr xs
        | _ => Js.arr []) = Js.arr [] := by
      cases hg : List.lookup "themes" fields with
      | none => rfl
      | some w =>
        cases w with
        | arr xs => exact absurd hg (hth xs)
        | null => rfl
        | bool b => rfl
        | num n => rfl
        | str s => rfl
        | obj fs => rfl
    simp [normalizeAnalysis, Js.get, List.lookup, hmatch]
  · intro ht
    have ht2 : List.lookup "tone" fields = none := ht
    simp [normalizeAnalysis, Js.get, List.lookup, jsOr, ht2]
  · intro hsu
    have hsu2 : List.lookup "summary" fields = none := hsu
    simp [normalizeAnalysis, Js.get, List.lookup, jsOr, hsu2]

/-- Witness for C3 at a concrete empty parsed object. -/
theorem c3_missing_fields_defaulted_witness :
    (callGeminiAPI (pObj (Js.obj [])) (netOf (okTextResponse "x")) 0 3).outcome
      = Except.ok (normalizeAnalysis (Js.obj []) "x")
    ∧ Js.get (normalizeAnalysis (Js.obj []) "x") "sentiment" = some (Js.str "neutral")
    ∧ Js.get (normalizeAnalysis (Js.obj []) "x") "themes" = some (Js.arr [])
    ∧ Js.get (normalizeAnalysis (Js.obj []) "x") "tone" = some (Js.str "Not specified")
    ∧ Js.get (normalizeAnalysis (Js.obj []) "x") "summary"
        = some (Js.str (jsSubstring "x" 200)) := by
  have h := c3_missing_fields_defaulted (pObj (Js.obj [])) (netOf (okTextResponse "x")) 0 3
    (okTextResponse "x") "x" [] rfl rfl rfl
  exact ⟨h.1, h.2.1 rfl, h.2.2.1 (fun xs hxs => Option.noConfusion hxs),
    h.2.2.2.1 rfl, h.2.2.2.2 rfl⟩

/-- C7: when a 429 arrives with the attempt counter at or above
`maxRetries`, the call settles as a rejection — the non-200 rejection
carrying the payload-derived message, which the specification names
RateLimitExceeded — in that single attempt, with no backoff; moreover a
chain of consecutive 429 responses started at attempt `a ≤ m` issues
exactly `m + 1 - a` outbound attempts in total. -/
theorem c7_rate_limit_exhausted :
    (∀ (p : String → Option Js) (net : Nat → NetEvent) (a m : Nat) (r : Js),
        m ≤ a → net a = NetEvent.response 429 (Except.ok r) →
        callGeminiAPI p net a m
          = ⟨Except.error (non200Error r 429), 1, []⟩)
    ∧ (∀ (p : String → Option Js) (net : Nat → NetEvent) (bodies : Nat → Js) (m : Nat),
        (∀ i, net i = NetEvent.response 429 (Except.ok (bodies i))) →
        ∀ a, a ≤ m → (callGeminiAPI p net a m).attempts = m + 1 - a) := by
  constructor
  · exact fun p net a m r hge hnet => callG_step_429_stop p net a m r hge hnet
  · intro p net bodies m hnet
    suffices hk : ∀ (k a : Nat), m - a ≤ k → a ≤ m →
        (callGeminiAPI p net a m).attempts = m + 1 - a by
      exact fun a ha => hk (m - a) a le_rfl ha
    intro k
    induction k with
    | zero =>
      intro a hk ha
      have hae : a = m := by omega
      subst hae
      rw [callG_step_429_stop p net a a (bodies a) le_rfl (hnet a)]
      show 1 = a + 1 - a
      omega
    | succ k ih =>
      intro a hk ha
      by_cases hlt : a < m
      · rw [callG_step_429 p net a m (bodies a) hlt (hnet a)]
        have hrec := ih (a + 1) (by omega) (by omega)
        show (callGeminiAPI p net (a + 1) m).attempts + 1 = m + 1 - a
        omega
      · have hae : a = m := by omega
        subst hae
        rw [callG_step_429_stop p net a a (bodies a) le_rfl (hnet a)]
        show 1 = a + 1 - a
        omega

/-- Witness for C7 at a concrete exhausted chain. -/
theorem c7_rate_limit_exhausted_witness :
    callGeminiAPI pNone net429always 3 3
      = ⟨Except.error (non200Error (Js.obj []) 429), 1, []⟩ :=
  c7_rate_limit_exhausted.1 pNone net429always 3 3 (Js.obj []) le_rfl rfl

/-- C9 counterexample: a 200 response whose body parses to JSON `null`
has no candidates entry, yet `callGeminiAPI` rejects through the caught
`TypeError` of reading `candidates` off `null` — a parse-failure
rejection, not one of the three shape errors. -/
theorem c9_invalid_shape_counterexample :
    candidateText Js.null = none
    ∧ (callGeminiAPI pNone (netOf Js.null) 0 3).outcome
        = Except.error (CallError.parseFailure
            "Cannot read properties of null (reading 'candidates')")
    ∧ ¬ ((callGeminiAPI pNone (netOf Js.null) 0 3).outcome
          = Except.error CallError.missingCandidates
        ∨ (callGeminiAPI pNone (netOf Js.null) 0 3).outcome
          = Except.error CallError.missingParts
        ∨ (callGeminiAPI pNone (netOf Js.null) 0 3).outcome
          = Except.error CallError.emptyResponse) := by
  have heval : (callGeminiAPI pNone (netOf Js.null) 0 3).outcome
      = Except.error (CallError.parseFailure
          "Cannot read properties of null (reading 'candidates')") := by
    rw [callG_step_200 pNone (netOf Js.null) 0 3 Js.null rfl]
    rfl
  refine ⟨rfl, heval, ?_⟩
  rw [heval]
  intro hcontra
  rcases hcontra with hc | hc | hc <;> simp at hc

/-- C9 (amended): a 200 response whose parsed body is not JSON `null` and
lacks the expected structure — no usable candidates entry, no
content.parts entry, or a falsy extracted text — makes `callGeminiAPI`
reject with one of the three shape errors rather than resolve with a
defaulted object; a body parsed to `null` rejects as a parse failure
instead. -/
theorem c9_invalid_shape_rejected (p : String → Option Js) (net : Nat → NetEvent)
    (a m : Nat) (r : Js)
    (hnet : net a = NetEvent.response 200 (Except.ok r))
    (hnn : r.isNull = false)
    (hshape : candidateText r = none) :
    (callGeminiAPI p net a m).outcome = Except.error CallError.missingCandidates
    ∨ (callGeminiAPI p net a m).outcome = Except.error CallError.missingParts
    ∨ (callGeminiAPI p net a m).outcome = Except.error CallError.emptyResponse := by
  rw [callG_step_200 p net a m r hnet]
  exact handle200_none p r hnn hshape

/-- Witness for C9 at a concrete candidates-free 200 body. -/
theorem c9_invalid_shape_rejected_witness :
    (callGeminiAPI pNone (netOf (Js.obj [])) 0 3).outcome
        = Except.error CallError.missingCandidates
    ∨ (callGeminiAPI pNone (netOf (Js.obj [])) 0 3).outcome
        = Except.error CallError.missingParts
    ∨ (callGeminiAPI pNone (netOf (Js.obj [])) 0 3).outcome
        = Except.error CallError.emptyResponse :=
  c9_invalid_shape_rejected pNone (netOf (Js.obj [])) 0 3 (Js.obj []) rfl rfl rfl

/-- C10: a response of any non-200 status — 429 included — whose body is
not valid JSON makes `callGeminiAPI` reject immediately with a
parse-failure error: one attempt, no backoff, no retry.  The 429
backoff-and-retry path is reachable only when the 429 body parses. -/
theorem c10_unparseable_body_no_retry (p : String → Option Js) (net : Nat → NetEvent)
    (a m statusCode : Nat) (msg : String)
    (_hstatus : statusCode ≠ 200)
    (hnet : net a = NetEvent.response statusCode (Except.error msg)) :
    callGeminiAPI p net a m = ⟨Except.error (CallError.parseFailure msg), 1, []⟩ :=
  callG_step_badBody p net a m statusCode msg hnet

/-- Witness for C10 at a concrete unparseable 429 body. -/
theorem c10_unparseable_body_no_retry_witness :
    callGeminiAPI pNone netBadBody 0 3
      = ⟨Except.error (CallError.parseFailure "Unexpected token o"), 1, []⟩ :=
  c10_unparseable_body_no_retry pNone netBadBody 0 3 429 "Unexpected token o" (by omega) rfl

/-- C4 counterexample: a 200 response whose candidate text parses as an
object containing all four fields — but with the falsy (empty-string)
sentiment — resolves with the sentiment replaced by the "neutral" default,
so the result is not identical to the input fields. -/
theorem c4_roundtrip_counterexample :
    Js.get c4falsy "sentiment" = some (Js.str "")
    ∧ (callGeminiAPI (pObj c4falsy) (netOf (okTextResponse "z")) 0 3).outcome
        = Except.ok (Js.obj [("sentiment", Js.str "neutral"), ("themes", Js.arr []),
            ("tone", Js.str "calm"), ("summary", Js.str "fine")])
    ∧ Js.obj [("sentiment", Js.str "neutral"), ("themes", Js.arr []),
        ("tone", Js.str "calm"), ("summary", Js.str "fine")] ≠ c4falsy := by
  refine ⟨rfl, ?_, ?_⟩
  · rw [callG_step_200 (pObj c4falsy) (netOf (okTextResponse "z")) 0 3 (okTextResponse "z") rfl]
    rfl
  · simp [c4falsy]

/-- C4 (amended): a 200 response whose candidate text parses as a JSON
object containing all four fields, with sentiment, tone and summary
truthy values and themes an array, resolves with exactly those four input
fields — the round trip alters nothing. -/
theorem c4_roundtrip_truthy (p : String → Option Js) (net : Nat → NetEvent)
    (a m : Nat) (r : Js) (raw : String) (fields : List (String × Js)) (s t su : Js)
    (ts : List Js)
    (hnet : net a = NetEvent.response 200 (Except.ok r))
    (htext : candidateText r = some (Js.str raw))
    (hparse : p (stripFences (jsTrim raw)) = some (Js.obj fields))
    (hs : Js.get (Js.obj fields) "sentiment" = some s) (hst : s.truthy = true)
    (hth : Js.get (Js.obj fields) "themes" = some (Js.arr ts))
    (ht : Js.get (Js.obj fields) "tone" = some t) (htt : t.truthy = true)
    (hsu : Js.get (Js.obj fields) "summary" = some su) (hsut : su.truthy = true) :
    (callGeminiAPI p net a m).outcome
      = Except.ok (Js.obj [("sentiment", s), ("themes", Js.arr ts),
          ("tone", t), ("summary", su)]) := by
  rw [callG_step_200 p net a m r hnet]
  show handle200 p r = _
  rw [handle200_text p r (Js.str raw) htext]
  have hs2 : List.lookup "sentiment" fields = some s := hs
  have hth2 : List.lookup "themes" fields = some (Js.arr ts) := hth
  have ht2 : List.lookup "tone" fields = some t := ht
  have hsu2 : List.lookup "summary" fields = some su := hsu
  simp [handleText, hparse, normalizeAnalysis, Js.get, jsOr, hs2, hth2, ht2, hsu2,
    hst, htt, hsut]

/-- Witness for the amended C4 at a concrete fully-truthy object. -/
theorem c4_roundtrip_truthy_witness :
    (callGeminiAPI (pObj c4full) (netOf (okTextResponse "y")) 0 3).outcome
      = Except.ok (Js.obj [("sentiment", Js.str "positive"),
          ("themes", Js.arr [Js.str "work"]), ("tone", Js.str "upbeat"),
          ("summary", Js.str "Expresses enjoyment of work.")]) :=
  c4_roundtrip_truthy (pObj c4full) (netOf (okTextResponse "y")) 0 3
    (okTextResponse "y") "y" _ _ _ _ _ rfl rfl rfl rfl rfl rfl rfl rfl rfl rfl

/-- C5 counterexample: the one-character whitespace text has length 1 —
inside the claimed always-valid range [1,10000] — yet the handler returns
the 400 validation error without any remote call. -/
theorem c5_validation_counterexample :
    (" ").length = 1
    ∧ analyzeHandler bodySpace "gemma-3-27b-it" cmOk
        = (HRes.badRequest "Please provide valid text to analyze", []) :=
  ⟨rfl, rfl⟩

/-- C5 (amended): a string body text whose trimmed form is non-empty and
whose length is at most 10000 passes validation — the handler proceeds to
the executor and no 400 is produced; a whitespace-only text (length 0
included) or a text longer than 10000 characters is answered with the
corresponding 400 error and an empty call trace, so no remote call is
attempted. -/
theorem c5_validation_amended (body : Js) (pm : String)
    (cm : String → String → Except CallError Js) (s : String)
    (h : Js.get body "text" = some (Js.str s)) :
    (jsTrim s ≠ "" → s.length ≤ 10000 →
        analyzeHandler body pm cm = analyzeCore (jsTrim s) pm cm
        ∧ ∀ (msg : String) (tr : List String),
            analyzeHandler body pm cm ≠ (HRes.badRequest msg, tr))
    ∧ (jsTrim s = "" →
        analyzeHandler body pm cm
          = (HRes.badRequest "Please provide valid text to analyze", []))
    ∧ (jsTrim s ≠ "" → s.length > 10000 →
        analyzeHandler body pm cm
          = (HRes.badRequest "Text is too long. Maximum 10,000 characters allowed.", [])) := by
  have hs' : jsTrim s ≠ "" → s ≠ "" := by
    intro hne hcontra
    subst hcontra
    exact hne rfl
  refine ⟨?_, ?_, ?_⟩
  · intro hne hlen
    have h1 : (s == "") = false := by simpa using hs' hne
    have h2 : (jsTrim s == "") = false := by simpa using hne
    have h3 : ¬(s.length > 10000) := by omega
    have heq : analyzeHandler body pm cm = analyzeCore (jsTrim s) pm cm := by
      unfold analyzeHandler
      rw [h]
      simp [h1, h2, h3]
    refine ⟨heq, ?_⟩
    intro msg tr
    rw [heq]
    exact analyzeCore_no_badRequest (jsTrim s) pm cm msg tr
  · intro hz
    unfold analyzeHandler
    rw [h]
    by_cases hse : s = ""
    · subst hse
      simp
    · have h1 : (s == "") = false := by simpa using hse
      have h2 : (jsTrim s == "") = true := by simpa using hz
      simp [h1, h2]
  · intro hne hgt
    have h1 : (s == "") = false := by simpa using hs' hne
    have h2 : (jsTrim s == "") = false := by simpa using hne
    unfold analyzeHandler
    rw [h]
    simp [h1, h2, hgt]

/-- Witness for the amended C5 at the concrete valid text `"hi"`. -/
theorem c5_validation_amended_witness :
    analyzeHandler bodyHi "gemma-3-27b-it" cmOk
      = analyzeCore (jsTrim "hi") "gemma-3-27b-it" cmOk :=
  ((c5_validation_amended bodyHi "gemma-3-27b-it" cmOk "hi" rfl).1
    (by decide) (by decide)).1

/-- C6 counterexample: a 429 payload with the unparsable structured
retryDelay `"soon"` yields a NaN delay, not the claimed default of 30
seconds, and that NaN is the delay awaited before the retry. -/
theorem c6_retry_delay_counterexample :
    extractRetryDelay c6resp = none
    ∧ extractRetryDelay c6resp ≠ some 30
    ∧ (callGeminiAPI pNone net429soon 0 3).delays = [extractRetryDelay c6resp] := by
  refine ⟨rfl, by decide, ?_⟩
  rw [callG_step_429 pNone net429soon 0 3 c6resp (by omega) rfl]
  rw [callG_step_non200 pNone net429soon 1 3 500 (Js.obj []) (by omega) (by omega) rfl]

/-- C6 (amended): a 429 with attempts left causes exactly one backoff of
`extractRetryDelay(payload)` seconds before the retry with attempt + 1,
where the extracted delay is `parseInt`, base 10, of the first detail
whose `retryDelay` is truthy — `NaN` rather than 30 when that value has
no leading digits — and the default 30 when the structured details list
is absent or contains no truthy `retryDelay`. -/
theorem c6_retry_delay_amended :
    (∀ (p : String → Option Js) (net : Nat → NetEvent) (a m : Nat) (e : Js),
        a < m → net a = NetEvent.response 429 (Except.ok e) →
        (callGeminiAPI p net a m).delays
            = extractRetryDelay e :: (callGeminiAPI p net (a + 1) m).delays
        ∧ (callGeminiAPI p net a m).outcome = (callGeminiAPI p net (a + 1) m).outcome
        ∧ (callGeminiAPI p net a m).attempts = (callGeminiAPI p net (a + 1) m).attempts + 1)
    ∧ (∀ (e : Js) (details : List Js),
        optChainGet (e.get "error") "details" = some (Js.arr details) →
        Js.null ∉ details →
        extractRetryDelay e
          = (match details.find? (fun d => (truthyVal (d.get "retryDelay")).isSome) with
             | some d => jsParseInt (jsToString ((truthyVal (d.get "retryDelay")).getD Js.null))
             | none => some 30))
    ∧ (∀ e : Js, (∀ details : List Js,
          optChainGet (e.get "error") "details" ≠ some (Js.arr details)) →
        extractRetryDelay e = some 30) := by
  refine ⟨?_, ?_, ?_⟩
  · intro p net a m e hlt hnet
    rw [callG_step_429 p net a m e hlt hnet]
    exact ⟨rfl, rfl, rfl⟩
  · intro e details hdet hnn
    unfold extractRetryDelay
    rw [hdet]
    refine scanDetails_find details (fun d hd => ?_)
    cases d with
    | null => exact absurd hd hnn
    | bool b => rfl
    | num n => rfl
    | str s => rfl
    | arr xs => rfl
    | obj fs => rfl
  · intro e hnone
    unfold extractRetryDelay
    cases hd : optChainGet (e.get "error") "details" with
    | none => rfl
    | some w =>
      cases w with
      | arr details => exact absurd hd (hnone details)
      | null => rfl
      | bool b => rfl
      | num n => rfl
      | str s => rfl
      | obj fs => rfl

/-- Witness for the amended C6 at the concrete unparsable-delay payload. -/
theorem c6_retry_delay_amended_witness :
    (callGeminiAPI pNone net429soon 0 3).delays
      = extractRetryDelay c6resp :: (callGeminiAPI pNone net429soon 1 3).delays :=
  (c6_retry_delay_amended.1 pNone net429soon 0 3 c6resp (by omega) rfl).1

/-- A failing primary call puts the handler into its catch: the
not-found check decides between the alternative-model loop and the
propagated 500. -/
theorem analyzeCore_error (t pm : String) (cm : String → String → Except CallError Js)
    (e : CallError) (hp : cm t pm = Except.error e) :
    analyzeCore t pm cm =
      (if ((CallError.message e != "")
          && (containsStr (CallError.message e) "not found"
              || containsStr (CallError.message e) "is not found")) = true then
        (match tryAlternatives (fun mdl => cm t mdl) pm alternativeModels with
         | (some analysis, tried) => (HRes.ok analysis, pm :: tried)
         | (none, tried) =>
           (HRes.serverError
              "All models failed. Check available models at /api/models or in server logs.",
            pm :: tried))
      else
        (HRes.serverError (if CallError.message e == "" then
            "An error occurred while analyzing the text. Please try again."
          else CallError.message e), [pm])) := by
  unfold analyzeCore
  rw [hp]

/-- C8: a primary-model failure whose message includes "not found" makes
the handler try the fixed alternative list in order, skipping the entry
equal to the configured primary model, stopping at the first success;
when every alternative fails the handler answers the all-models-failed
500; a failure whose message does not include "not found" propagates
immediately as a 500 with no alternative attempted. -/
theorem c8_model_fallback (t pm : String) (cm : String → String → Except CallError Js)
    (e : CallError) (hp : cm t pm = Except.error e) :
    ((containsStr (CallError.message e) "not found"
        || containsStr (CallError.message e) "is not found") = true →
      (∀ (mdl : String) (a : Js),
          (alternativeModels.filter (fun m1 => m1 != pm)).find?
              (fun m1 => isOkB (cm t m1)) = some mdl →
          cm t mdl = Except.ok a →
          analyzeCore t pm cm
            = (HRes.ok a,
               pm :: ((alternativeModels.filter (fun m1 => m1 != pm)).takeWhile
                   (fun m1 => !isOkB (cm t m1)) ++ [mdl])))
      ∧ ((alternativeModels.filter (fun m1 => m1 != pm)).find?
            (fun m1 => isOkB (cm t m1)) = none →
          analyzeCore t pm cm
            = (HRes.serverError
                 "All models failed. Check available models at /api/models or in server logs.",
               pm :: alternativeModels.filter (fun m1 => m1 != pm))))
    ∧ ((containsStr (CallError.message e) "not found"
        || containsStr (CallError.message e) "is not found") = false →
      analyzeCore t pm cm
        = (HRes.serverError (if CallError.message e == "" then
              "An error occurred while analyzing the text. Please try again."
            else CallError.message e), [pm])) := by
  constructor
  · intro hnf
    have hne : (CallError.message e != "") = true := by
      by_cases hmsg : CallError.message e = ""
      · rw [hmsg] at hnf
        exact absurd hnf (by decide)
      · simpa using hmsg
    have hcond : ((CallError.message e != "")
        && (containsStr (CallError.message e) "not found"
            || containsStr (CallError.message e) "is not found")) = true := by
      rw [hne, hnf]
      rfl
    constructor
    · intro mdl a hfind hok
      rw [analyzeCore_error t pm cm e hp]
      rw [hcond]
      rw [if_pos rfl]
      rw [tryAlternatives_spec (fun mdl => cm t mdl) pm alternativeModels]
      rw [hfind]
      simp [okValue, hok]
    · intro hfind
      rw [analyzeCore_error t pm cm e hp]
      rw [hcond]
      rw [if_pos rfl]
      rw [tryAlternatives_spec (fun mdl => cm t mdl) pm alternativeModels]
      rw [hfind]
  · intro hnf
    have hcond : ((CallError.message e != "")
        && (containsStr (CallError.message e) "not found"
            || containsStr (CallError.message e) "is not found")) = false := by
      rw [hnf]
      exact Bool.and_false _
    rw [analyzeCore_error t pm cm e hp]
    rw [hcond]
    rw [if_neg (by simp)]

/-- Witness for C8 at a concrete not-found failure with the second
alternative succeeding. -/
theorem c8_model_fallback_witness :
    analyzeCore "hi" "gemma-3-27b-it" cmNotFound
      = (HRes.ok (Js.obj []),
         ["gemma-3-27b-it", "gemini-1.5-flash-latest", "gemini-1.5-flash"]) :=
  ((c8_model_fallback "hi" "gemma-3-27b-it" cmNotFound
      (CallError.remoteError "models/gemma-3-27b-it is not found for API version v1beta")
      rfl).1 (by decide)).1 "gemini-1.5-flash" (Js.obj []) (by decide) rfl
